import Mathlib

/-!
# Verification of the repo-intel Schema & Constraint Validation Engine

Shallow embedding of `crates/common-library/src/validation/{schema,types,integrity,registry}.rs`
(the Schema Validator, Type Validator, Integrity Checker and Schema Registry) and proofs of
the frozen claims about them.

Modelling conventions:
* `serde_json::Value` is embedded as the inductive `Value` below; objects are association
  lists in insertion order with unique keys (`serde_json::Map` lookup is modelled by
  first-match association-list lookup).
* JSON numbers are embedded as `ℚ`.  Every numeric literal exercised by the claims is a
  small integer, on which `f64` arithmetic and comparisons are exact, so `ℚ` is a faithful
  model of the `as_f64`-based comparisons in the source.
* Wall-clock fields (`validation_time_ms`, `check_time_ms`) are modelled as `0`.
* The external `regex` crate (`Regex::new` + `is_match`) is modelled by an abstract
  parameter `regexIsMatch : String → String → Option Bool` carried by the validator
  (`none` = the pattern failed to compile and is skipped, mirroring the source).
  Likewise `chrono` date parsing, `uuid` parsing and `DefaultHasher` are abstract
  parameters of the integrity checker: they are external crates, not code of this
  repository, and no claim depends on their behaviour.
* `SchemaValidator::validate_value` can recurse unboundedly through registered `$ref`
  chains (the source has no cycle guard), so it is embedded with an explicit fuel
  parameter; `none` means the fuel was exhausted.
-/

/-- The `serde_json::Value` document model: null, boolean, number, string, array, object. -/
inductive Value where
  | null : Value
  | bool (b : Bool) : Value
  | num (q : ℚ) : Value
  | str (s : String) : Value
  | arr (xs : List Value) : Value
  | obj (kvs : List (String × Value)) : Value
deriving Repr, Inhabited

/-- Association-list lookup, modelling `serde_json::Map::get` / `HashMap::get`. -/
def getKey {α : Type} : List (String × α) → String → Option α
  | [], _ => none
  | (k', v) :: rest, k => if k' = k then some v else getKey rest k

/-- `Value::as_object`. -/
def Value.asObject : Value → Option (List (String × Value))
  | .obj kvs => some kvs
  | _ => none

/-- `Value::as_array`. -/
def Value.asArray : Value → Option (List Value)
  | .arr xs => some xs
  | _ => none

/-- `Value::as_str`. -/
def Value.asStr : Value → Option String
  | .str s => some s
  | _ => none

/-- `Value::as_f64`: in serde_json every `Number` converts to `f64`; modelled on `ℚ`. -/
def Value.asF64 : Value → Option ℚ
  | .num q => some q
  | _ => none

/-- `Value::as_u64`: succeeds on non-negative integral numbers that fit in 64 bits. -/
def Value.asU64 : Value → Option Nat
  | .num q => if q.den = 1 ∧ 0 ≤ q.num ∧ q.num < 2 ^ 64 then some q.num.toNat else none
  | _ => none

/-- `Value::as_bool`. -/
def Value.asBool : Value → Option Bool
  | .bool b => some b
  | _ => none

/-- `Value::is_null`. -/
def Value.isNull : Value → Bool
  | .null => true
  | _ => false

mutual

/-- Structural equality of documents (`PartialEq` on `serde_json::Value`). -/
def Value.beq : Value → Value → Bool
  | .null, .null => true
  | .bool a, .bool b => a == b
  | .num a, .num b => a == b
  | .str a, .str b => a == b
  | .arr a, .arr b => Value.beqList a b
  | .obj a, .obj b => Value.beqObj a b
  | _, _ => false

/-- Elementwise equality of arrays. -/
def Value.beqList : List Value → List Value → Bool
  | [], [] => true
  | x :: xs, y :: ys => Value.beq x y && Value.beqList xs ys
  | _, _ => false

/-- Entrywise equality of objects (insertion-order sensitive, as for association lists). -/
def Value.beqObj : List (String × Value) → List (String × Value) → Bool
  | [], [] => true
  | (k₁, v₁) :: xs, (k₂, v₂) :: ys => k₁ == k₂ && Value.beq v₁ v₂ && Value.beqObj xs ys
  | _, _ => false

end

instance : BEq Value := ⟨Value.beq⟩

/-- Display of a JSON number in an error message (`f64`/`u64` `Display`); all numbers in
the claims are integers, where `f64` display and `ℚ` display agree. -/
def numToString (q : ℚ) : String := toString q

namespace SchemaVal

/-- `SchemaErrorType` (schema.rs). -/
inductive SchemaErrorType where
  | RequiredFieldMissing
  | InvalidType
  | ConstraintViolation
  | FormatError
  | PatternMismatch
  | ArrayConstraintViolation
  | ObjectConstraintViolation
  | CustomValidationFailed
deriving Repr, DecidableEq

/-- `SchemaError` (schema.rs). -/
structure SchemaError where
  path : String
  message : String
  error_type : SchemaErrorType
  suggestion : Option String
deriving Repr, DecidableEq

/-- `SchemaValidationResult` (schema.rs); `validation_time_ms` is modelled as 0. -/
structure SchemaValidationResult where
  is_valid : Bool
  errors : List SchemaError
  warnings : List SchemaError
  validation_time_ms : Nat
deriving Repr, DecidableEq

/-- `SchemaValidator`: the registered-schema table plus the abstract regex facility
(the `logger` field only emits log lines and is not modelled). -/
structure SchemaValidator where
  schemas : List (String × Value)
  regexIsMatch : String → String → Option Bool

/-- The runtime type-tag match in `SchemaValidator::validate_type` (schema.rs:383-390). -/
def valueTypeName : Value → String
  | .null => "null"
  | .bool _ => "boolean"
  | .num _ => "number"
  | .str _ => "string"
  | .arr _ => "array"
  | .obj _ => "object"

/-- `SchemaValidator::validate_type` (schema.rs:376-400): one `InvalidType` error when the
runtime tag differs from the expected type string. -/
def typeCheckErrors (data : Value) (expectedType path : String) : List SchemaError :=
  if valueTypeName data ≠ expectedType then
    [{ path := path
       message := "Expected type '" ++ expectedType ++ "', got '" ++ valueTypeName data ++ "'"
       error_type := .InvalidType
       suggestion := some ("Convert the value to type '" ++ expectedType ++ "'") }]
  else []

/-- The `type` key of a plain schema node (schema.rs:271-275): only a string-valued
`type` is checked. -/
def typeStep (data : Value) (tv : Option Value) (path : String) : List SchemaError :=
  match tv with
  | some (.str t) => typeCheckErrors data t path
  | _ => []

/-- The `required` key (schema.rs:278-301): for an object document, one
`RequiredFieldMissing` error per absent string entry, at path `path ++ "." ++ field`. -/
def requiredStep (data : Value) (rv : Option Value) (path : String) : List SchemaError :=
  match rv, data with
  | some (.arr reqs), .obj dataObj =>
      reqs.foldl (fun acc rf =>
        match rf with
        | .str fname =>
            if (getKey dataObj fname).isNone then
              acc ++ [{ path := path ++ "." ++ fname
                        message := "Required field '" ++ fname ++ "' is missing"
                        error_type := .RequiredFieldMissing
                        suggestion := some ("Add the required field '" ++ fname ++ "'") }]
            else acc
        | _ => acc) []
  | _, _ => []

/-- The `properties` key (schema.rs:304-326): recurse into each declared property present
in the document, extending the path (no leading dot at the root). -/
def propertiesStep (recur : Value → Value → String → Option (List SchemaError × List SchemaError))
    (data : Value) (pv : Option Value) (path : String) :
    Option (List SchemaError × List SchemaError) :=
  match pv, data with
  | some (.obj propsObj), .obj dataObj =>
      propsObj.foldlM (fun acc kv =>
        let propPath := if path = "" then kv.1 else path ++ "." ++ kv.1
        match getKey dataObj kv.1 with
        | some propValue =>
            (recur propValue kv.2 propPath).map (fun r => (acc.1 ++ r.1, acc.2 ++ r.2))
        | none => pure acc) ([], [])
  | _, _ => some ([], [])

/-- The `additionalProperties` key (schema.rs:329-358): only runs when the document is an
object and a `properties` object is also present; `false` flags extra keys as
`ObjectConstraintViolation`, a schema object recurses, anything else is ignored. -/
def additionalPropsStep
    (recur : Value → Value → String → Option (List SchemaError × List SchemaError))
    (data : Value) (apv pv : Option Value) (path : String) :
    Option (List SchemaError × List SchemaError) :=
  match apv, data, pv with
  | some ap, .obj dataObj, some (.obj propsObj) =>
      dataObj.foldlM (fun acc kv =>
        if (getKey propsObj kv.1).isSome then pure acc
        else
          match ap with
          | .bool false =>
              pure (acc.1 ++ [{ path := path ++ "." ++ kv.1
                                message := "Additional property '" ++ kv.1 ++ "' is not allowed"
                                error_type := .ObjectConstraintViolation
                                suggestion := some "Remove the additional property or update the schema" }],
                    acc.2)
          | .obj _ =>
              (recur kv.2 ap (path ++ "." ++ kv.1)).map (fun r => (acc.1 ++ r.1, acc.2 ++ r.2))
          | _ => pure acc) ([], [])
  | _, _, _ => some ([], [])

/-- The `items` key (schema.rs:361-368): recurse the item schema over every element of an
array document at path `path ++ "[" ++ i ++ "]"`. -/
def itemsStep (recur : Value → Value → String → Option (List SchemaError × List SchemaError))
    (data : Value) (iv : Option Value) (path : String) :
    Option (List SchemaError × List SchemaError) :=
  match iv, data with
  | some items, .arr elems =>
      elems.enum.foldlM (fun acc ie =>
        (recur ie.2 items (path ++ "[" ++ toString ie.1 ++ "]")).map
          (fun r => (acc.1 ++ r.1, acc.2 ++ r.2))) ([], [])
  | _, _ => some ([], [])

/-- `SchemaValidator::validate_constraints` (schema.rs:403-533): leaf string, number and
array constraints.  Rust's `str::len` (UTF-8 byte length) is `String.utf8ByteSize`.
The function receives a `warnings` buffer but never pushes to it, so only errors are
returned. -/
def constraintsStep (rm : String → String → Option Bool) (data : Value)
    (so : List (String × Value)) (path : String) : List SchemaError :=
  (match data with
   | .str s =>
       (match (getKey so "minLength").bind Value.asU64 with
        | some minLen =>
            if s.utf8ByteSize < minLen then
              [{ path := path
                 message := "String length " ++ toString s.utf8ByteSize ++
                   " is less than minimum " ++ toString minLen
                 error_type := .ConstraintViolation
                 suggestion := some "Increase the string length" }]
            else []
        | none => [])
       ++
       (match (getKey so "maxLength").bind Value.asU64 with
        | some maxLen =>
            if s.utf8ByteSize > maxLen then
              [{ path := path
                 message := "String length " ++ toString s.utf8ByteSize ++
                   " exceeds maximum " ++ toString maxLen
                 error_type := .ConstraintViolation
                 suggestion := some "Decrease the string length" }]
            else []
        | none => [])
       ++
       (match (getKey so "pattern").bind Value.asStr with
        | some ps =>
            match rm ps s with
            | some false =>
                [{ path := path
                   message := "String does not match pattern: " ++ ps
                   error_type := .PatternMismatch
                   suggestion := some "Update the string to match the required pattern" }]
            | _ => []
        | none => [])
   | _ => [])
  ++
  (match data.asF64 with
   | some q =>
       (match (getKey so "minimum").bind Value.asF64 with
        | some minVal =>
            if q < minVal then
              [{ path := path
                 message := "Value " ++ numToString q ++ " is less than minimum " ++
                   numToString minVal
                 error_type := .ConstraintViolation
                 suggestion := some "Increase the value" }]
            else []
        | none => [])
       ++
       (match (getKey so "maximum").bind Value.asF64 with
        | some maxVal =>
            if q > maxVal then
              [{ path := path
                 message := "Value " ++ numToString q ++ " exceeds maximum " ++
                   numToString maxVal
                 error_type := .ConstraintViolation
                 suggestion := some "Decrease the value" }]
            else []
        | none => [])
   | none => [])
  ++
  (match data with
   | .arr elems =>
       (match (getKey so "minItems").bind Value.asU64 with
        | some minCount =>
            if elems.length < minCount then
              [{ path := path
                 message := "Array length " ++ toString elems.length ++
                   " is less than minimum " ++ toString minCount
                 error_type := .ArrayConstraintViolation
                 suggestion := some "Add more items to the array" }]
            else []
        | none => [])
       ++
       (match (getKey so "maxItems").bind Value.asU64 with
        | some maxCount =>
            if elems.length > maxCount then
              [{ path := path
                 message := "Array length " ++ toString elems.length ++
                   " exceeds maximum " ++ toString maxCount
                 error_type := .ArrayConstraintViolation
                 suggestion := some "Remove items from the array" }]
            else []
        | none => [])
   | _ => [])

/-- `$ref` resolution (schema.rs:171-178): the referenced schema replaces the node only
when the `$ref` value is a string naming a registered schema; otherwise processing
falls through to the other keys. -/
def refTarget (schemas : List (String × Value)) (rv : Option Value) : Option Value :=
  match rv with
  | some (.str rs) => getKey schemas rs
  | _ => none

/-- `allOf` merge (schema.rs:181-188): every branch's errors and warnings are appended to
the shared buffers in order. -/
def combineAllOf (rs : List (List SchemaError × List SchemaError)) :
    List SchemaError × List SchemaError :=
  ((rs.map Prod.fst).flatten, (rs.map Prod.snd).flatten)

/-- `anyOf` merge (schema.rs:191-220): clean if any branch is clean, otherwise the union
of all branch errors; branch warnings are always discarded. -/
def combineAnyOf (rs : List (List SchemaError × List SchemaError)) :
    List SchemaError × List SchemaError :=
  if rs.any (fun r => r.1.isEmpty) then ([], []) else ((rs.map Prod.fst).flatten, [])

/-- `oneOf` merge (schema.rs:223-251): if the number of clean branches differs from one,
the collected branch errors (empty for clean branches) are attached; branch warnings
are always discarded. -/
def combineOneOf (rs : List (List SchemaError × List SchemaError)) :
    List SchemaError × List SchemaError :=
  if (rs.filter (fun r => r.1.isEmpty)).length ≠ 1 then ((rs.map Prod.fst).flatten, [])
  else ([], [])

/-- The single `CustomValidationFailed` error produced by the `not` combinator
(schema.rs:259-266). -/
def notMatchError (path : String) : SchemaError :=
  { path := path
    message := "Value matches 'not' schema"
    error_type := .CustomValidationFailed
    suggestion := some "Value should not match the specified schema" }

set_option maxHeartbeats 1000000 in
/-- `SchemaValidator::validate_value` (schema.rs:161-373) with explicit recursion fuel
(`none` = fuel exhausted; the source can recurse unboundedly through `$ref` chains).
Returns the `(errors, warnings)` appended by the call, in push order. -/
def validateValue (v : SchemaValidator) :
    Nat → Value → Value → String → Option (List SchemaError × List SchemaError)
  | 0, _, _, _ => none
  | n + 1, data, schema, path =>
    match schema with
    | .obj so =>
      match refTarget v.schemas (getKey so "$ref") with
      | some referenced => validateValue v n data referenced path
      | none =>
        match getKey so "allOf" with
        | some (.arr subs) =>
            (subs.mapM (fun s => validateValue v n data s path)).map combineAllOf
        | _ =>
          match getKey so "anyOf" with
          | some (.arr subs) =>
              (subs.mapM (fun s => validateValue v n data s path)).map combineAnyOf
          | _ =>
            match getKey so "oneOf" with
            | some (.arr subs) =>
                (subs.mapM (fun s => validateValue v n data s path)).map combineOneOf
            | _ =>
              match getKey so "not" with
              | some notSchema =>
                  (validateValue v n data notSchema path).map (fun r =>
                    if r.1.isEmpty then ([notMatchError path], []) else ([], []))
              | none => do
                  let p ← propertiesStep (validateValue v n) data (getKey so "properties") path
                  let a ← additionalPropsStep (validateValue v n) data
                    (getKey so "additionalProperties") (getKey so "properties") path
                  let i ← itemsStep (validateValue v n) data (getKey so "items") path
                  pure (typeStep data (getKey so "type") path
                          ++ requiredStep data (getKey so "required") path
                          ++ p.1 ++ a.1 ++ i.1
                          ++ constraintsStep v.regexIsMatch data so path,
                        p.2 ++ a.2 ++ i.2)
    | _ => some ([], [])

/-- `SchemaValidator::validate` (schema.rs:71-105): hard error (`Except.error`) exactly
when the schema name is unregistered, otherwise the structured result with
`is_valid = errors.is_empty()`.  The outer `Option` is the recursion fuel. -/
def validate (v : SchemaValidator) (fuel : Nat) (data : Value) (schemaName : String) :
    Option (Except String SchemaValidationResult) :=
  match getKey v.schemas schemaName with
  | none => some (.error ("Schema '" ++ schemaName ++ "' not found"))
  | some schema =>
      (validateValue v fuel data schema "").map (fun r =>
        .ok { is_valid := r.1.isEmpty
              errors := r.1
              warnings := r.2
              validation_time_ms := 0 })

end SchemaVal

namespace TypeVal

/-- `TypeErrorType` (types.rs). -/
inductive TypeErrorType where
  | TypeMismatch
  | ConstraintViolation
  | ConversionError
  | RangeViolation
  | FormatError
  | RequiredFieldMissing
  | InvalidValue
deriving Repr, DecidableEq

/-- `TypeError` (types.rs). -/
structure TypeError where
  path : String
  message : String
  error_type : TypeErrorType
  suggestion : Option String
deriving Repr, DecidableEq

/-- `ConstraintType` of the type validator (types.rs). -/
inductive ConstraintType where
  | Required
  | MinLength
  | MaxLength
  | MinValue
  | MaxValue
  | Pattern
  | Enum
  | Custom
deriving Repr, DecidableEq

/-- `ConstraintSeverity` (types.rs): the 3-level scale of the type validator. -/
inductive ConstraintSeverity where
  | Warning
  | Error
  | Critical
deriving Repr, DecidableEq

/-- `TypeConstraint` (types.rs). -/
structure TypeConstraint where
  name : String
  constraint_type : ConstraintType
  value : Option Value
  severity : ConstraintSeverity

/-- `TypeDefinition` (types.rs). -/
structure TypeDefinition where
  name : String
  base_type : String
  constraints : List TypeConstraint
  description : Option String

/-- `TypeValidator` state: the named-type registry and the globally registered
constraints, plus the abstract regex facility. -/
structure TypeValidator where
  type_registry : List (String × TypeDefinition)
  constraints : List TypeConstraint
  regexIsMatch : String → String → Option Bool

/-- `TypeValidationResult` (types.rs); `validation_time_ms` is modelled as 0. -/
structure TypeValidationResult where
  is_valid : Bool
  actual_type : String
  expected_type : String
  errors : List TypeError
  warnings : List TypeError
  validation_time_ms : Nat
deriving Repr, DecidableEq

/-- `TypeValidator::get_value_type` (types.rs:420-429). -/
def getValueType : Value → String
  | .null => "null"
  | .bool _ => "boolean"
  | .num _ => "number"
  | .str _ => "string"
  | .arr _ => "array"
  | .obj _ => "object"

/-- `TypeValidator::is_type_compatible` (types.rs:432-438): `number` and `integer` are
mutually compatible, every other pair must be equal. -/
def isTypeCompatible (actual expected : String) : Bool :=
  if actual = "number" ∧ expected = "integer" then true
  else if actual = "integer" ∧ expected = "number" then true
  else actual = expected

/-- `validate_required_constraint` (types.rs:236-251): flags a null value. -/
def validateRequiredConstraint (value : Value) (c : TypeConstraint) : Option TypeError :=
  if value.isNull then
    some { path := "root"
           message := "Required field '" ++ c.name ++ "' is missing"
           error_type := .RequiredFieldMissing
           suggestion := some "Provide a value for this required field" }
  else none

/-- `validate_min_length_constraint` (types.rs:254-278). -/
def validateMinLengthConstraint (value : Value) (c : TypeConstraint) : Option TypeError :=
  match value.asStr, c.value.bind Value.asU64 with
  | some s, some minLength =>
      if s.utf8ByteSize < minLength then
        some { path := "root"
               message := "String length " ++ toString s.utf8ByteSize ++
                 " is less than minimum " ++ toString minLength
               error_type := .ConstraintViolation
               suggestion := some "Increase the string length" }
      else none
  | _, _ => none

/-- `validate_max_length_constraint` (types.rs:281-305). -/
def validateMaxLengthConstraint (value : Value) (c : TypeConstraint) : Option TypeError :=
  match value.asStr, c.value.bind Value.asU64 with
  | some s, some maxLength =>
      if s.utf8ByteSize > maxLength then
        some { path := "root"
               message := "String length " ++ toString s.utf8ByteSize ++
                 " exceeds maximum " ++ toString maxLength
               error_type := .ConstraintViolation
               suggestion := some "Decrease the string length" }
      else none
  | _, _ => none

/-- `validate_min_value_constraint` (types.rs:308-331). -/
def validateMinValueConstraint (value : Value) (c : TypeConstraint) : Option TypeError :=
  match value.asF64, c.value.bind Value.asF64 with
  | some q, some minValue =>
      if q < minValue then
        some { path := "root"
               message := "Value " ++ numToString q ++ " is less than minimum " ++
                 numToString minValue
               error_type := .RangeViolation
               suggestion := some "Increase the value" }
      else none
  | _, _ => none

/-- `validate_max_value_constraint` (types.rs:334-354). -/
def validateMaxValueConstraint (value : Value) (c : TypeConstraint) : Option TypeError :=
  match value.asF64, c.value.bind Value.asF64 with
  | some q, some maxValue =>
      if q > maxValue then
        some { path := "root"
               message := "Value " ++ numToString q ++ " exceeds maximum " ++
                 numToString maxValue
               error_type := .RangeViolation
               suggestion := some "Decrease the value" }
      else none
  | _, _ => none

/-- `validate_pattern_constraint` (types.rs:357-385); a non-compiling pattern
(`regexIsMatch _ _ = none`) is skipped, mirroring `if let Ok(regex) = ...`. -/
def validatePatternConstraint (rm : String → String → Option Bool) (value : Value)
    (c : TypeConstraint) : Option TypeError :=
  match value.asStr, c.value.bind Value.asStr with
  | some s, some pat =>
      match rm pat s with
      | some false =>
          some { path := "root"
                 message := "Value '" ++ s ++ "' does not match pattern '" ++ pat ++ "'"
                 error_type := .FormatError
                 suggestion := some ("Update the value to match pattern '" ++ pat ++ "'") }
      | _ => none
  | _, _ => none

/-- `validate_enum_constraint` (types.rs:388-406); membership is structural equality. -/
def validateEnumConstraint (value : Value) (c : TypeConstraint) : Option TypeError :=
  match c.value with
  | some (.arr enumArray) =>
      if enumArray.any (fun e => Value.beq e value) then none
      else
        some { path := "root"
               message := "Value is not in allowed values"
               error_type := .InvalidValue
               suggestion := some "Use one of the allowed values" }
  | _ => none

/-- `validate_custom_constraint` (types.rs:409-417): unwired extension point, never
fires. -/
def validateCustomConstraint (_value : Value) (_c : TypeConstraint) : Option TypeError :=
  none

/-- `TypeValidator::validate_constraint` dispatch (types.rs:222-233). -/
def validateConstraint (rm : String → String → Option Bool) (value : Value)
    (c : TypeConstraint) : Option TypeError :=
  match c.constraint_type with
  | .Required => validateRequiredConstraint value c
  | .MinLength => validateMinLengthConstraint value c
  | .MaxLength => validateMaxLengthConstraint value c
  | .MinValue => validateMinValueConstraint value c
  | .MaxValue => validateMaxValueConstraint value c
  | .Pattern => validatePatternConstraint rm value c
  | .Enum => validateEnumConstraint value c
  | .Custom => validateCustomConstraint value c

/-- Routing of a failing constraint by severity (`Warning` → warnings, `Error`/`Critical`
→ errors), shared by types.rs:152-160 and types.rs:210-218. -/
def routeConstraints (rm : String → String → Option Bool) (value : Value)
    (cs : List TypeConstraint) : List TypeError × List TypeError :=
  cs.foldl (fun acc c =>
    match validateConstraint rm value c with
    | some e =>
        match c.severity with
        | .Warning => (acc.1, acc.2 ++ [e])
        | _ => (acc.1 ++ [e], acc.2)
    | none => acc) ([], [])

/-- `TypeValidator::validate_against_type_definition` (types.rs:185-219): base-type
compatibility check plus the definition's own constraint list. -/
def validateAgainstTypeDefinition (rm : String → String → Option Bool) (value : Value)
    (td : TypeDefinition) (path : String) : List TypeError × List TypeError :=
  let baseErrors :=
    if ¬ isTypeCompatible (getValueType value) td.base_type then
      [{ path := path
         message := "Base type mismatch: expected '" ++ td.base_type ++ "', got '" ++
           getValueType value ++ "'"
         error_type := TypeErrorType.TypeMismatch
         suggestion := some ("Convert the value to base type '" ++ td.base_type ++ "'") }]
    else []
  let routed := routeConstraints rm value td.constraints
  (baseErrors ++ routed.1, routed.2)

/-- `TypeValidator::validate_type` (types.rs:122-182): basic compatibility check, then
the registered type definition (when present), then the global constraints;
`is_valid` is true iff `errors` is empty. -/
def validateType (tv : TypeValidator) (value : Value) (typeName : String) :
    TypeValidationResult :=
  let actualType := getValueType value
  let basicErrors :=
    if ¬ isTypeCompatible actualType typeName then
      [{ path := "root"
         message := "Type mismatch: expected '" ++ typeName ++ "', got '" ++ actualType ++ "'"
         error_type := TypeErrorType.TypeMismatch
         suggestion := some ("Convert the value to type '" ++ typeName ++ "'") }]
    else []
  let defPart :=
    match getKey tv.type_registry typeName with
    | some td => validateAgainstTypeDefinition tv.regexIsMatch value td ""
    | none => ([], [])
  let globalPart := routeConstraints tv.regexIsMatch value tv.constraints
  let errors := basicErrors ++ defPart.1 ++ globalPart.1
  { is_valid := errors.isEmpty
    actual_type := actualType
    expected_type := typeName
    errors := errors
    warnings := defPart.2 ++ globalPart.2
    validation_time_ms := 0 }

end TypeVal

namespace Integrity

/-- `IntegrityViolationType` (integrity.rs). -/
inductive IntegrityViolationType where
  | ChecksumMismatch
  | ReferentialIntegrityViolation
  | DataConsistencyViolation
  | ConstraintViolation
  | FormatViolation
  | DuplicateKeyViolation
  | NullConstraintViolation
  | RangeViolation
deriving Repr, DecidableEq

/-- `ViolationSeverity` (integrity.rs): the 4-level scale of the integrity checker. -/
inductive ViolationSeverity where
  | Low
  | Medium
  | High
  | Critical
deriving Repr, DecidableEq

/-- `ConstraintType` of the integrity checker (integrity.rs). -/
inductive ConstraintType where
  | NotNull
  | Unique
  | ForeignKey
  | Range
  | Format
  | Custom
deriving Repr, DecidableEq

/-- `IntegrityConstraint` (integrity.rs). -/
structure IntegrityConstraint where
  name : String
  constraint_type : ConstraintType
  path : String
  value : Option Value
  severity : ViolationSeverity

/-- `IntegrityViolation` (integrity.rs). -/
structure IntegrityViolation where
  violation_type : IntegrityViolationType
  path : String
  message : String
  severity : ViolationSeverity
  suggestion : Option String
deriving Repr, DecidableEq

/-- `IntegrityResult` (integrity.rs); `check_time_ms` is modelled as 0 and the score as
`ℚ` (all penalties are small integers, on which `f64` arithmetic is exact). -/
structure IntegrityResult where
  is_valid : Bool
  violations : List IntegrityViolation
  checksum_valid : Bool
  consistency_score : ℚ
  check_time_ms : Nat

/-- `DataIntegrityChecker` state.  `hashValue` models the `DefaultHasher`-based
`calculate_checksum` (integrity.rs:166-173), `isValidDate` models `chrono` RFC-3339
parsing and `isValidUuid` models `uuid` parsing — all external crates. -/
structure DataIntegrityChecker where
  checksums : List (String × String)
  constraints : List IntegrityConstraint
  hashValue : Value → String
  isValidDate : String → Bool
  isValidUuid : String → Bool

/-- `Value::get` on an object (used by the range constraint for `min`/`max`). -/
def Value.getField (v : Value) (k : String) : Option Value :=
  v.asObject.bind (fun kvs => getKey kvs k)

/-- Accumulator-based worker for `splitDot`. -/
def splitDotAux : List Char → List Char → List String
  | [], acc => [String.mk acc.reverse]
  | c :: cs, acc =>
      if c = '.' then String.mk acc.reverse :: splitDotAux cs []
      else splitDotAux cs (c :: acc)

/-- Rust `str::split('.')` as used by `get_value_by_path`: splits the character list on
`'.'`; `"".split('.')` yields the single segment `""`. -/
def splitDot (s : String) : List String := splitDotAux s.data []

/-- `DataIntegrityChecker::get_value_by_path` (integrity.rs:442-464): the literal
sentinel `"root"` addresses the whole document; any other path is split on `'.'` and
resolved by object-key traversal only. -/
def getValueByPath (data : Value) (path : String) : Option Value :=
  if path = "root" then some data
  else
    (splitDot path).foldlM
      (fun current part => current.asObject.bind (fun kvs => getKey kvs part)) data

/-- `check_not_null_constraint` (integrity.rs:192-209); `self` is unused in the source,
so the function is embedded standalone. -/
def checkNotNullConstraint (data : Value) (c : IntegrityConstraint) :
    Option IntegrityViolation :=
  match getValueByPath data c.path with
  | some v =>
      if v.isNull then
        some { violation_type := .NullConstraintViolation
               path := c.path
               message := "Field '" ++ c.path ++ "' cannot be null"
               severity := c.severity
               suggestion := some "Provide a non-null value for this field" }
      else none
  | none => none

/-- `check_unique_constraint` (integrity.rs:212-231): simplified placeholder that only
flags an explicit null. -/
def checkUniqueConstraint (data : Value) (c : IntegrityConstraint) :
    Option IntegrityViolation :=
  match getValueByPath data c.path with
  | some v =>
      if v.isNull then
        some { violation_type := .DuplicateKeyViolation
               path := c.path
               message := "Field '" ++ c.path ++ "' must be unique"
               severity := c.severity
               suggestion := some "Ensure the value is unique across all records" }
      else none
  | none => none

/-- `check_foreign_key_constraint` (integrity.rs:234-256): structural inequality with the
constraint's expected value. -/
def checkForeignKeyConstraint (data : Value) (c : IntegrityConstraint) :
    Option IntegrityViolation :=
  match getValueByPath data c.path, c.value with
  | some v, some referenced =>
      if ¬ Value.beq v referenced then
        some { violation_type := .ReferentialIntegrityViolation
               path := c.path
               message := "Foreign key '" ++ c.path ++ "' references non-existent value"
               severity := c.severity
               suggestion := some "Ensure the referenced value exists" }
      else none
  | _, _ => none

/-- `check_range_constraint` (integrity.rs:259-305): reads `min`/`max` sub-fields of the
constraint value; the `min` check returns first. -/
def checkRangeConstraint (data : Value) (c : IntegrityConstraint) :
    Option IntegrityViolation :=
  match (getValueByPath data c.path).bind Value.asF64, c.value with
  | some q, some cv =>
      match (Value.getField cv "min").bind Value.asF64 with
      | some minValue =>
          if q < minValue then
            some { violation_type := .RangeViolation
                   path := c.path
                   message := "Value " ++ numToString q ++ " is below minimum " ++
                     numToString minValue
                   severity := c.severity
                   suggestion := some "Increase the value to meet the minimum requirement" }
          else
            match (Value.getField cv "max").bind Value.asF64 with
            | some maxValue =>
                if q > maxValue then
                  some { violation_type := .RangeViolation
                         path := c.path
                         message := "Value " ++ numToString q ++ " exceeds maximum " ++
                           numToString maxValue
                         severity := c.severity
                         suggestion := some "Decrease the value to meet the maximum requirement" }
                else none
            | none => none
      | none =>
          match (Value.getField cv "max").bind Value.asF64 with
          | some maxValue =>
              if q > maxValue then
                some { violation_type := .RangeViolation
                       path := c.path
                       message := "Value " ++ numToString q ++ " exceeds maximum " ++
                         numToString maxValue
                       severity := c.severity
                       suggestion := some "Decrease the value to meet the maximum requirement" }
              else none
          | none => none
  | _, _ => none

/-- `is_valid_email` (integrity.rs:362-364). -/
def isValidEmail (email : String) : Bool :=
  email.contains '@' && email.contains '.'

/-- `is_valid_url` (integrity.rs:367-369). -/
def isValidUrl (url : String) : Bool :=
  url.startsWith "http://" || url.startsWith "https://"

/-- `validate_format` dispatch (integrity.rs:351-359); unknown formats are assumed
valid. -/
def validateFormat (c : DataIntegrityChecker) (value fmt : String) : Bool :=
  if fmt = "email" then isValidEmail value
  else if fmt = "url" then isValidUrl value
  else if fmt = "date" then c.isValidDate value
  else if fmt = "uuid" then c.isValidUuid value
  else true

/-- `check_format_constraint` (integrity.rs:308-337). -/
def checkFormatConstraint (c : DataIntegrityChecker) (data : Value)
    (con : IntegrityConstraint) : Option IntegrityViolation :=
  match (getValueByPath data con.path).bind Value.asStr, con.value.bind Value.asStr with
  | some s, some fmt =>
      if ¬ validateFormat c s fmt then
        some { violation_type := .FormatViolation
               path := con.path
               message := "Value '" ++ s ++ "' does not match format '" ++ fmt ++ "'"
               severity := con.severity
               suggestion := some ("Update the value to match format '" ++ fmt ++ "'") }
      else none
  | _, _ => none

/-- `check_custom_constraint` (integrity.rs:340-348): placeholder, always passes. -/
def checkCustomConstraint (_data : Value) (_con : IntegrityConstraint) :
    Option IntegrityViolation :=
  none

/-- `DataIntegrityChecker::check_constraint` dispatch (integrity.rs:176-189). -/
def checkConstraint (c : DataIntegrityChecker) (data : Value) (con : IntegrityConstraint) :
    Option IntegrityViolation :=
  match con.constraint_type with
  | .NotNull => checkNotNullConstraint data con
  | .Unique => checkUniqueConstraint data con
  | .ForeignKey => checkForeignKeyConstraint data con
  | .Range => checkRangeConstraint data con
  | .Format => checkFormatConstraint c data con
  | .Custom => checkCustomConstraint data con

/-- `has_circular_reference` (integrity.rs:416-420): the source always returns `false`
on the immutable tree value. -/
def hasCircularReference (_data : Value) : Bool := false

/-- `check_data_consistency` (integrity.rs:382-413): duplicate-key scan over a top-level
object (one violation per repeated occurrence) plus the always-false circular probe. -/
def checkDataConsistency (data : Value) : List IntegrityViolation :=
  (match data with
   | .obj kvs =>
       (kvs.foldl (fun (acc : List IntegrityViolation × List String) kv =>
         if kv.1 ∈ acc.2 then
           (acc.1 ++ [{ violation_type := .DuplicateKeyViolation
                        path := "root"
                        message := "Duplicate key found: " ++ kv.1
                        severity := .Medium
                        suggestion := some "Remove duplicate keys" }], acc.2)
         else (acc.1, acc.2 ++ [kv.1])) ([], [])).1
   | _ => [])
  ++
  (if hasCircularReference data then
     [{ violation_type := .DataConsistencyViolation
        path := "root"
        message := "Circular reference detected"
        severity := .High
        suggestion := some "Remove circular references" }]
   else [])

/-- The per-severity penalty of `calculate_consistency_score` (integrity.rs:430-435):
Low 5, Medium 15, High 30, Critical 50. -/
def severityPenalty : ViolationSeverity → ℚ
  | .Low => 5
  | .Medium => 15
  | .High => 30
  | .Critical => 50

/-- `calculate_consistency_score` (integrity.rs:423-439): 100.0 for an empty list,
otherwise 100.0 minus the per-violation penalties, floored at 0.0 by `score.max(0.0)`. -/
def calculateConsistencyScore (violations : List IntegrityViolation) : ℚ :=
  if violations.isEmpty then 100
  else max (violations.foldl (fun score v => score - severityPenalty v.severity) 100) 0

/-- `DataIntegrityChecker::check_integrity` (integrity.rs:106-163): checksum check (when
registered for `key`), then registered constraints, then consistency checks;
`is_valid` is true iff the merged violation list is empty.  The Rust signature
returns `Result` but has no error path, so the embedding returns the result
directly. -/
def checkIntegrity (c : DataIntegrityChecker) (data : Value) (key : String) :
    IntegrityResult :=
  let checksumPart : List IntegrityViolation × Bool :=
    match getKey c.checksums key with
    | some expected =>
        let actual := c.hashValue data
        if actual ≠ expected then
          ([{ violation_type := .ChecksumMismatch
              path := "root"
              message := "Checksum mismatch: expected " ++ expected ++ ", got " ++ actual
              severity := .Critical
              suggestion := some "Verify data source and recalculate checksum" }], false)
        else ([], true)
    | none => ([], true)
  let constraintPart := c.constraints.foldl (fun acc con =>
    match checkConstraint c data con with
    | some v => acc ++ [v]
    | none => acc) []
  let violations := checksumPart.1 ++ constraintPart ++ checkDataConsistency data
  { is_valid := violations.isEmpty
    violations := violations
    checksum_valid := checksumPart.2
    consistency_score := calculateConsistencyScore violations
    check_time_ms := 0 }

end Integrity

namespace Registry

/-- `SchemaMetadata` (registry.rs); `DateTime<Utc>` timestamps are modelled as `Nat`. -/
structure SchemaMetadata where
  name : String
  version : String
  schema : Value
  description : Option String
  tags : List String
  created_at : Nat
  updated_at : Nat
  author : Option String
  dependencies : List String
  is_deprecated : Bool

/-- `SchemaVersion` (registry.rs). -/
structure SchemaVersion where
  version : String
  schema : Value
  created_at : Nat
  is_current : Bool
  changelog : Option String

/-- `SchemaRegistry` state: the three `HashMap`s, modelled as association lists. -/
structure SchemaRegistry where
  schemas : List (String × SchemaMetadata)
  versions : List (String × List SchemaVersion)
  tags : List (String × List String)

/-- `HashMap::insert`: replaces an existing binding for the key, otherwise adds one. -/
def insertKey {α : Type} (kvs : List (String × α)) (k : String) (v : α) :
    List (String × α) :=
  if (getKey kvs k).isSome then
    kvs.map (fun kv => if kv.1 = k then (k, v) else kv)
  else kvs ++ [(k, v)]

/-- `SchemaRegistry::validate_schema_recursive` (registry.rs:301-365): walks nested
schemas under `properties`/`additionalProperties`/`items`, the array combinators and
`not`, but only *logs* warnings for unknown keys; every control path returns
`Ok(())` (the recursion has no error source), so extensionally it is the constant
`Ok` function.  Logging is not modelled. -/
def validateSchemaRecursive (_schema : Value) : Except String Unit := .ok ()

/-- `SchemaRegistry::validate_schema` (registry.rs:280-298): the top level must be an
object with at least one of `type`, `$ref`, `allOf`, followed by the recursive
structural pass. -/
def validateSchema (schema : Value) : Except String Unit :=
  match schema with
  | .obj o =>
      if (getKey o "type").isNone ∧ (getKey o "$ref").isNone ∧ (getKey o "allOf").isNone then
        .error "Schema must have 'type', '$ref', or 'allOf' property"
      else validateSchemaRecursive schema
  | _ => .error "Schema must be a JSON object"

/-- `SchemaRegistry::validate_dependencies` (registry.rs:368-379): every dependency name
must have at least one registered version (a key starting with `name:`). -/
def validateDependencies (schemas : List (String × SchemaMetadata)) :
    List String → Except String Unit
  | [] => .ok ()
  | dep :: rest =>
      if schemas.any (fun kv => kv.1.startsWith (dep ++ ":")) then
        validateDependencies schemas rest
      else .error ("Dependency '" ++ dep ++ "' not found")

/-- `SchemaRegistry::register_schema` (registry.rs:78-129).  The Rust method mutates
`&mut self`; the embedding returns the call result together with the registry state
after the call.  All three checks (schema shape, duplicate `(name, version)` key,
dependencies) run before any mutation, so every error path leaves the state
untouched. -/
def registerSchema (reg : SchemaRegistry) (m : SchemaMetadata) :
    Except String Unit × SchemaRegistry :=
  match validateSchema m.schema with
  | .error e => (.error e, reg)
  | .ok _ =>
      let schemaKey := m.name ++ ":" ++ m.version
      if (getKey reg.schemas schemaKey).isSome then
        (.error ("Schema '" ++ m.name ++ "' version '" ++ m.version ++ "' already exists"),
         reg)
      else
        match validateDependencies reg.schemas m.dependencies with
        | .error e => (.error e, reg)
        | .ok _ =>
            let version : SchemaVersion :=
              { version := m.version
                schema := m.schema
                created_at := m.created_at
                is_current := true
                changelog := none }
            let schemas' := insertKey reg.schemas schemaKey m
            let versions' := insertKey reg.versions m.name
              (((getKey reg.versions m.name).getD []) ++ [version])
            let tags' := m.tags.foldl (fun acc tag =>
              insertKey acc tag (((getKey acc tag).getD []) ++ [m.name])) reg.tags
            (.ok (), { schemas := schemas', versions := versions', tags := tags' })

end Registry

section Fixtures

open SchemaVal Integrity Registry TypeVal

/-- A regex facility on which every pattern fails to compile; no claim exercises
`pattern`, so any choice yields the same results on the claimed inputs. -/
def rm0 : String → String → Option Bool := fun _ _ => none

/-- A schema validator with an empty schema table. -/
def v0 : SchemaVal.SchemaValidator := ⟨[], rm0⟩

/-- The inline schema `{"type": "number"}`. -/
def numberSchema : Value := .obj [("type", .str "number")]

/-- `{"oneOf": [{"type":"number"}, {"type":"number"}]}`: both branches are clean on a
number document. -/
def oneOfBothSchema : Value := .obj [("oneOf", .arr [numberSchema, numberSchema])]

/-- An integrity checker with a single `NotNull` constraint at the empty path. -/
def c0 : Integrity.DataIntegrityChecker :=
  ⟨[], [⟨"nn", .NotNull, "", none, .High⟩], fun _ => "", fun _ => false, fun _ => false⟩

/-- The document `{"id": "", "age": -1}` of the spec's §8 scenario. -/
def c6doc : Value := .obj [("id", .str ""), ("age", .num (-1))]

/-- The schema of the spec's §8 scenario. -/
def c6schema : Value :=
  .obj [("type", .str "object"),
        ("properties", .obj [("id", .obj [("type", .str "string"), ("minLength", .num 1)]),
                             ("age", .obj [("type", .str "number"), ("minimum", .num 0)])]),
        ("required", .arr [.str "id", .str "age"])]

/-- The two errors produced by the §8 scenario. -/
def c6errors : List SchemaVal.SchemaError :=
  [{ path := "id"
     message := "String length 0 is less than minimum 1"
     error_type := .ConstraintViolation
     suggestion := some "Increase the string length" },
   { path := "age"
     message := "Value -1 is less than minimum 0"
     error_type := .ConstraintViolation
     suggestion := some "Increase the value" }]

/-- `[{"x": 1}]`: an array document holding one object with an extra key. -/
def c9doc : Value := .arr [.obj [("x", .num 1)]]

/-- An array schema whose top level has `additionalProperties` but no `properties`;
its `items` sub-schema carries both keys. -/
def c9schema : Value :=
  .obj [("type", .str "array"),
        ("items", .obj [("type", .str "object"), ("properties", .obj []),
                        ("additionalProperties", .bool false)]),
        ("additionalProperties", .bool false)]

/-- A registered schema entry `user` version `1.0`. -/
def m1 : Registry.SchemaMetadata :=
  { name := "user"
    version := "1.0"
    schema := .obj [("type", .str "object")]
    description := none
    tags := []
    created_at := 0
    updated_at := 0
    author := none
    dependencies := []
    is_deprecated := false }

/-- A registry already holding `user:1.0`. -/
def reg1 : Registry.SchemaRegistry :=
  ⟨[("user:1.0", m1)], [("user", [⟨"1.0", m1.schema, 0, true, none⟩])], []⟩

/-- A schema validator with one registered schema `num`. -/
def v1 : SchemaVal.SchemaValidator := ⟨[("num", numberSchema)], rm0⟩

/-- A type validator with an empty type registry and no global constraints. -/
def tv0 : TypeVal.TypeValidator := ⟨[], [], rm0⟩

end Fixtures

namespace SchemaVal

/-- C1: `oneOf` when **both** branches are clean.  The source's failure arm
(schema.rs:246-248) only attaches the collected branch errors, which are empty when
every branch is clean, so validating the number `5` against
`{"oneOf": [{"type":"number"}, {"type":"number"}]}` is *clean* even though two
branches match — contradicting the claimed (and spec-stated) exactly-one semantics. -/
theorem c1_oneOf_both_clean_is_clean :
    validateValue v0 1 (.num 5) numberSchema "" = some ([], []) ∧
    validateValue v0 2 (.num 5) oneOfBothSchema "" = some ([], []) := by
  exact ⟨rfl, rfl⟩

end SchemaVal

namespace SchemaVal

/-- C2: the `not` combinator.  For any validator state, fuel, document, inner schema and
path, if the inner sub-validation returns `(es, ws)`, then validating against
`{"not": S}` is clean exactly when `es` is non-empty; when `es` is empty exactly one
`CustomValidationFailed` error is emitted at the current path, and when it is not,
no inner errors or warnings are surfaced. -/
theorem c2_not_combinator (v : SchemaValidator) (n : Nat) (D S : Value) (p : String)
    (es ws : List SchemaError)
    (h : validateValue v n D S p = some (es, ws)) :
    validateValue v (n + 1) D (.obj [("not", S)]) p =
      some (if es.isEmpty then ([notMatchError p], []) else ([], [])) := by
  simp [validateValue, getKey, refTarget, h]

/-- Witness for C2 at the document `5`, inner schema `{"type":"number"}` (clean inner
validation) and the root path. -/
theorem c2_not_combinator_witness :
    validateValue v0 2 (.num 5) (.obj [("not", numberSchema)]) "" =
      some (if ([] : List SchemaError).isEmpty then ([notMatchError ""], []) else ([], [])) :=
  c2_not_combinator v0 1 (.num 5) numberSchema "" [] [] rfl

end SchemaVal

namespace SchemaVal

/-- C8 counterexample: `{"allOf": null, "oneOf": [{"type":"number"}]}` does **not**
validate like `{"allOf": null}` on the string `"x"` — a non-array `allOf` value is
skipped and the lower-precedence `oneOf` is evaluated instead, so the claimed
fixed-precedence equality fails at this concrete input. -/
theorem c8_precedence_counterexample :
    validateValue v0 2 (.str "x")
        (.obj [("allOf", .null), ("oneOf", .arr [numberSchema])]) "" ≠
      validateValue v0 2 (.str "x") (.obj [("allOf", .null)]) "" := by
  decide

/-- C8 amended: among combinator keys *whose values are arrays*, exactly one combinator
is evaluated, in the order `allOf`, `anyOf`, `oneOf`, `not`: an array-valued `allOf`
preempts any `anyOf`/`oneOf`/`not` siblings, an array-valued `anyOf` preempts
`oneOf`/`not`, and an array-valued `oneOf` preempts `not`, whatever the sibling
values are. -/
theorem c8_precedence_amended (v : SchemaValidator) (n : Nat) (D : Value) (p : String)
    (A : List Value) (b₁ b₂ b₃ : Value) :
    (validateValue v n D
        (.obj [("allOf", .arr A), ("anyOf", b₁), ("oneOf", b₂), ("not", b₃)]) p =
      validateValue v n D (.obj [("allOf", .arr A)]) p)
    ∧ (validateValue v n D (.obj [("anyOf", .arr A), ("oneOf", b₂), ("not", b₃)]) p =
      validateValue v n D (.obj [("anyOf", .arr A)]) p)
    ∧ (validateValue v n D (.obj [("oneOf", .arr A), ("not", b₃)]) p =
      validateValue v n D (.obj [("oneOf", .arr A)]) p) := by
  cases n with
  | zero => exact ⟨rfl, rfl, rfl⟩
  | succ n => refine ⟨?_, ?_, ?_⟩ <;> simp [validateValue, getKey, refTarget]

end SchemaVal

namespace Integrity

/-- C3 counterexample: a `NotNull` constraint at path `""` applied to the `Null` document
produces **no** violation at all — `""` is not treated like the `"root"` sentinel:
it is split into the single segment `""`, which fails object traversal on `Null`. -/
theorem c3_empty_path_counterexample :
    (checkIntegrity c0 .null "k").violations = [] := rfl

/-- C3 amended: only the literal sentinel `"root"` addresses the whole document; the
empty path `""` is resolved as ordinary dot traversal of the single segment `""`
(an object-key lookup of the empty key), so a `NotNull` constraint with path `""`
on a `Null` document yields no violation, while the same constraint with path
`"root"` yields a `NullConstraintViolation`. -/
theorem c3_empty_path_amended (D : Value) (nm : String) (sev : ViolationSeverity) :
    getValueByPath D "root" = some D
    ∧ getValueByPath D "" = (D.asObject.bind (fun kvs => getKey kvs ""))
    ∧ checkNotNullConstraint Value.null ⟨nm, .NotNull, "", none, sev⟩ = none
    ∧ checkNotNullConstraint Value.null ⟨nm, .NotNull, "root", none, sev⟩ =
        some { violation_type := .NullConstraintViolation
               path := "root"
               message := "Field 'root' cannot be null"
               severity := sev
               suggestion := some "Provide a non-null value for this field" } := by
  refine ⟨by simp [getValueByPath], ?_, rfl, rfl⟩
  cases D with
  | obj kvs =>
      show (splitDot "").foldlM
          (fun current part => current.asObject.bind (fun m => getKey m part))
          (Value.obj kvs) = _
      cases h : getKey kvs "" <;>
        simp [splitDot, splitDotAux, Value.asObject, h, List.foldlM]
  | null => rfl
  | bool b => rfl
  | num q => rfl
  | str s => rfl
  | arr xs => rfl

end Integrity

namespace SchemaVal

/-- C4: `SchemaValidator::validate` returns a hard error exactly when the schema name is
unregistered; whenever the name is registered the call never returns a hard error,
and any structured result it produces represents failure only through
`is_valid = false` together with a non-empty `errors` list. -/
theorem c4_validate_hard_error (v : SchemaValidator) (fuel : Nat) (data : Value)
    (nm : String) :
    ((∃ msg, validate v fuel data nm = some (Except.error msg)) ↔
      getKey v.schemas nm = none)
    ∧ (∀ r, validate v fuel data nm = some (Except.ok r) →
        (r.is_valid = true ↔ r.errors = [])) := by
  cases h : getKey v.schemas nm with
  | none =>
      have hv : validate v fuel data nm =
          some (.error ("Schema '" ++ nm ++ "' not found")) := by
        simp [validate, h]
      refine ⟨⟨fun _ => rfl, fun _ => ⟨_, hv⟩⟩, ?_⟩
      intro r hr
      rw [hv] at hr
      simp at hr
  | some schema =>
      have hv : validate v fuel data nm = (validateValue v fuel data schema "").map
          (fun r => Except.ok { is_valid := r.1.isEmpty, errors := r.1, warnings := r.2,
                                validation_time_ms := 0 }) := by
        simp [validate, h]
      refine ⟨⟨?_, ?_⟩, ?_⟩
      · rintro ⟨msg, hmsg⟩
        rw [hv] at hmsg
        cases hw : validateValue v fuel data schema "" with
        | none => rw [hw] at hmsg; simp at hmsg
        | some r => rw [hw] at hmsg; simp at hmsg
      · intro hn
        exact absurd hn (by simp)
      · intro r hr
        rw [hv] at hr
        cases hw : validateValue v fuel data schema "" with
        | none => rw [hw] at hr; simp at hr
        | some res =>
            rw [hw] at hr
            simp at hr
            rw [← hr]
            simp [List.isEmpty_iff]

/-- Witness for C4: looking up the unregistered name `missing` in a validator holding
only `num` yields a hard error. -/
theorem c4_validate_hard_error_witness :
    ∃ msg, validate v1 1 (.num 5) "missing" = some (Except.error msg) :=
  (c4_validate_hard_error v1 1 (.num 5) "missing").1.mpr rfl

end SchemaVal

namespace Integrity

/-- The running subtraction of `calculate_consistency_score` equals the initial score
minus the sum of the penalties. -/
theorem foldl_penalty_sub (vs : List IntegrityViolation) (init : ℚ) :
    vs.foldl (fun score v => score - severityPenalty v.severity) init =
      init - (vs.map (fun v => severityPenalty v.severity)).sum := by
  induction vs generalizing init with
  | nil => simp
  | cons hd tl ih => simp [ih, sub_sub]

/-- Every severity penalty is non-negative. -/
theorem severityPenalty_nonneg (s : ViolationSeverity) : 0 ≤ severityPenalty s := by
  cases s <;> norm_num [severityPenalty]

/-- C5: the consistency score equals 100 minus the summed per-violation penalties
(Low 5, Medium 15, High 30, Critical 50) floored at 0; it is never negative, it is
monotonically non-increasing as violations are appended, and it is exactly 100 on
the empty violation list. -/
theorem c5_consistency_score (vs : List IntegrityViolation) (v : IntegrityViolation) :
    calculateConsistencyScore vs =
      max (100 - (vs.map (fun w => severityPenalty w.severity)).sum) 0
    ∧ 0 ≤ calculateConsistencyScore vs
    ∧ calculateConsistencyScore (vs ++ [v]) ≤ calculateConsistencyScore vs
    ∧ calculateConsistencyScore [] = 100 := by
  have hformula : ∀ ws : List IntegrityViolation,
      calculateConsistencyScore ws =
        max (100 - (ws.map (fun w => severityPenalty w.severity)).sum) 0 := by
    intro ws
    cases ws with
    | nil => simp [calculateConsistencyScore]
    | cons hd tl =>
        simp only [calculateConsistencyScore, List.isEmpty_cons, if_neg]
        rw [foldl_penalty_sub]
        simp
  refine ⟨hformula vs, ?_, ?_, by simp [calculateConsistencyScore]⟩
  · rw [hformula vs]; exact le_max_right _ _
  · rw [hformula vs, hformula (vs ++ [v])]
    have hp : 0 ≤ severityPenalty v.severity := severityPenalty_nonneg v.severity
    have hsum : (vs.map (fun w => severityPenalty w.severity)).sum ≤
        ((vs ++ [v]).map (fun w => severityPenalty w.severity)).sum := by
      simp [List.map_append]
      linarith
    exact max_le_max (by linarith) le_rfl

end Integrity

namespace SchemaVal

set_option maxRecDepth 4000 in
/-- C6: validating `{"id":"","age":-1}` against the §8 scenario schema yields exactly the
two `ConstraintViolation` errors at paths `id` and `age` (string length 0 < 1 and
value -1 < minimum 0) and zero `RequiredFieldMissing` errors, for every validator
state and any sufficient recursion fuel. -/
theorem c6_two_constraint_violations (v : SchemaValidator) (n : Nat) :
    validateValue v (n + 2) c6doc c6schema "" = some (c6errors, [])
    ∧ c6errors.length = 2
    ∧ (c6errors.filter (fun e =>
        e.error_type == SchemaErrorType.ConstraintViolation && e.path == "id")).length = 1
    ∧ (c6errors.filter (fun e =>
        e.error_type == SchemaErrorType.ConstraintViolation && e.path == "age")).length = 1
    ∧ (c6errors.filter (fun e =>
        e.error_type == SchemaErrorType.RequiredFieldMissing)).length = 0 := by
  refine ⟨?_, by decide, by decide, by decide, by decide⟩
  simp +decide [validateValue, c6doc, c6schema, c6errors, getKey, refTarget, propertiesStep,
    additionalPropsStep, itemsStep, typeStep, requiredStep, constraintsStep, typeCheckErrors,
    valueTypeName, Value.asU64, Value.asF64, numToString]

end SchemaVal

namespace Registry

/-- C7: registering an entry whose `(name, version)` pair is already present is rejected
with a hard error, and the failed call leaves the registry's schema, version and tag
maps unchanged (every fallible check in `register_schema` runs before any mutation). -/
theorem c7_duplicate_registration (reg : SchemaRegistry) (m : SchemaMetadata)
    (h : (getKey reg.schemas (m.name ++ ":" ++ m.version)).isSome = true) :
    ∃ e, registerSchema reg m = (.error e, reg) := by
  unfold registerSchema
  cases hv : validateSchema m.schema with
  | error e => exact ⟨e, by simp [hv]⟩
  | ok u =>
      exact ⟨"Schema '" ++ m.name ++ "' version '" ++ m.version ++ "' already exists",
             by simp [hv, h]⟩

/-- Witness for C7: re-registering `user:1.0` in a registry already holding it fails and
leaves the registry unchanged. -/
theorem c7_duplicate_registration_witness :
    ∃ e, registerSchema reg1 m1 = (.error e, reg1) :=
  c7_duplicate_registration reg1 m1 rfl

end Registry

namespace TypeVal

/-- C10: for every numeric value (integral or not), the basic compatibility check of
`validate_type(v, "integer")` emits no error: the runtime tag of any number is
`"number"`, which `is_type_compatible` accepts for `"integer"`; with no registered
`integer` type definition and no global constraints the result is valid with an
empty error list. -/
theorem c10_number_integer_compatible (tv : TypeValidator) (q : ℚ)
    (h₁ : getKey tv.type_registry "integer" = none) (h₂ : tv.constraints = []) :
    (validateType tv (.num q) "integer").is_valid = true
    ∧ (validateType tv (.num q) "integer").errors = []
    ∧ (validateType tv (.num q) "integer").actual_type = "number"
    ∧ isTypeCompatible "number" "integer" = true := by
  refine ⟨?_, ?_, ?_, rfl⟩ <;>
    simp [validateType, getValueType, isTypeCompatible, routeConstraints, h₁, h₂]

/-- Witness for C10 at the non-integral number `3.5` and an empty type validator. -/
theorem c10_number_integer_compatible_witness :
    (validateType tv0 (.num (7 / 2)) "integer").is_valid = true
    ∧ (validateType tv0 (.num (7 / 2)) "integer").errors = []
    ∧ (validateType tv0 (.num (7 / 2)) "integer").actual_type = "number"
    ∧ isTypeCompatible "number" "integer" = true :=
  c10_number_integer_compatible tv0 (7 / 2) rfl rfl

end TypeVal

namespace SchemaVal

/-- C9 counterexample: validating `[{"x":1}]` against a schema whose **top level** has an
`additionalProperties` key but no `properties` key still emits an
`ObjectConstraintViolation` — the `items` sub-schema carries both keys and flags the
extra document key `x`. -/
theorem c9_additional_props_counterexample :
    ((validateValue v0 3 c9doc c9schema "").map (fun r =>
      r.1.any (fun e => e.error_type == SchemaErrorType.ObjectConstraintViolation))) =
      some true := by
  decide

end SchemaVal

namespace SchemaVal

/-- Dropping the `additionalProperties` entry does not change any other key's lookup. -/
theorem getKey_filterAP {α : Type} (so : List (String × α)) (k : String)
    (hk : ¬ k = "additionalProperties") :
    getKey (so.filter (fun kv => kv.1 != "additionalProperties")) k = getKey so k := by
  induction so with
  | nil => rfl
  | cons hd tl ih =>
      rcases hd with ⟨k', v⟩
      by_cases h : k' = "additionalProperties"
      · subst h
        have h2 : ¬ ("additionalProperties" = k) := fun h' => hk h'.symm
        simp [getKey, List.filter_cons, h2, ih]
      · simp [getKey, List.filter_cons, h, ih]

/-- Every error produced by the `type` step is an `InvalidType` error. -/
theorem typeStep_types (data : Value) (tvv : Option Value) (p : String) :
    ∀ e ∈ typeStep data tvv p, e.error_type = SchemaErrorType.InvalidType := by
  intro e he
  rcases tvv with _ | tv
  · simp [typeStep] at he
  · cases tv with
    | str t =>
        simp [typeStep, typeCheckErrors] at he
        rw [he.2]
    | null => simp [typeStep] at he
    | bool b => simp [typeStep] at he
    | num q => simp [typeStep] at he
    | arr xs => simp [typeStep] at he
    | obj kvs => simp [typeStep] at he

/-- Every error produced by the `required` step is a `RequiredFieldMissing` error. -/
theorem requiredStep_types (data : Value) (rv : Option Value) (p : String) :
    ∀ e ∈ requiredStep data rv p, e.error_type = SchemaErrorType.RequiredFieldMissing := by
  have haux : ∀ (dataObj : List (String × Value)) (reqs : List Value)
      (acc : List SchemaError),
      (∀ e ∈ acc, e.error_type = SchemaErrorType.RequiredFieldMissing) →
      ∀ e ∈ reqs.foldl (fun acc rf =>
        match rf with
        | .str fname =>
            if (getKey dataObj fname).isNone then
              acc ++ [{ path := p ++ "." ++ fname
                        message := "Required field '" ++ fname ++ "' is missing"
                        error_type := .RequiredFieldMissing
                        suggestion := some ("Add the required field '" ++ fname ++ "'") }]
            else acc
        | _ => acc) acc,
        e.error_type = SchemaErrorType.RequiredFieldMissing := by
    intro dataObj reqs
    induction reqs with
    | nil => intro acc hacc e he; exact hacc e he
    | cons hd tl ih =>
        intro acc hacc e he
        refine ih _ ?_ e he
        cases hd with
        | str fname =>
            by_cases hn : (getKey dataObj fname).isNone
            · intro e' he'
              simp only [hn, if_true] at he'
              rcases List.mem_append.mp he' with h' | h'
              · exact hacc e' h'
              · simp at h'
                rw [h']
            · intro e' he'
              simp only [hn, if_false] at he'
              exact hacc e' he'
        | null => exact hacc
        | bool b => exact hacc
        | num q => exact hacc
        | arr xs => exact hacc
        | obj kvs => exact hacc
  intro e he
  rcases rv with _ | rvv
  · simp [requiredStep] at he
  · cases rvv with
    | arr reqs =>
        cases data with
        | obj dataObj =>
            simp only [requiredStep] at he
            exact haux dataObj reqs [] (by simp) e he
        | null => simp [requiredStep] at he
        | bool b => simp [requiredStep] at he
        | num q => simp [requiredStep] at he
        | str s => simp [requiredStep] at he
        | arr xs => simp [requiredStep] at he
    | null => simp [requiredStep] at he
    | bool b => simp [requiredStep] at he
    | num q => simp [requiredStep] at he
    | str s => simp [requiredStep] at he
    | obj kvs => simp [requiredStep] at he

/-- Every error produced by the leaf-constraint step is a `ConstraintViolation`,
`PatternMismatch` or `ArrayConstraintViolation`. -/
theorem constraintsStep_types (rm : String → String → Option Bool) (data : Value)
    (so : List (String × Value)) (p : String) :
    ∀ e ∈ constraintsStep rm data so p,
      e.error_type = SchemaErrorType.ConstraintViolation ∨
        e.error_type = SchemaErrorType.PatternMismatch ∨
        e.error_type = SchemaErrorType.ArrayConstraintViolation := by
  intro e he
  unfold constraintsStep at he
  simp only [List.mem_append] at he
  rcases he with (he | he) | he <;> (repeat' split at he) <;> simp_all <;>
    rcases he with rfl | rfl | rfl <;> simp

/-- A plain schema node with none of the subschema-carrying keys reduces to its
`type`/`required`/leaf-constraint checks. -/
theorem validateValue_plain (v : SchemaValidator) (n : Nat) (D : Value) (p : String)
    (t : List (String × Value))
    (g1 : getKey t "$ref" = none) (g2 : getKey t "allOf" = none)
    (g3 : getKey t "anyOf" = none) (g4 : getKey t "oneOf" = none)
    (g5 : getKey t "not" = none) (g6 : getKey t "items" = none)
    (g7 : getKey t "properties" = none) :
    validateValue v (n + 1) D (.obj t) p =
      some (typeStep D (getKey t "type") p ++ requiredStep D (getKey t "required") p
              ++ constraintsStep v.regexIsMatch D t p, []) := by
  simp [validateValue, refTarget, g1, g2, g3, g4, g5, g6, g7,
    propertiesStep, additionalPropsStep, itemsStep]

end SchemaVal

namespace SchemaVal

/-- C9 amended: for every schema object that contains an `additionalProperties` key but
no `properties` key *and no other subschema-recursing key* (`$ref`, `allOf`,
`anyOf`, `oneOf`, `not`, `items`), validation never emits an
`ObjectConstraintViolation` and performs no additional-property recursion: the
result is identical with the `additionalProperties` entry removed (the
`additionalProperties` check only runs when a `properties` key is also present). -/
theorem c9_additional_props_amended (v : SchemaValidator) (n : Nat) (D : Value)
    (p : String) (so : List (String × Value))
    (h₁ : getKey so "$ref" = none) (h₂ : getKey so "allOf" = none)
    (h₃ : getKey so "anyOf" = none) (h₄ : getKey so "oneOf" = none)
    (h₅ : getKey so "not" = none) (h₆ : getKey so "items" = none)
    (h₇ : getKey so "properties" = none) :
    validateValue v n D (.obj so) p =
      validateValue v n D
        (.obj (so.filter (fun kv => kv.1 != "additionalProperties"))) p
    ∧ ∀ es ws, validateValue v n D (.obj so) p = some (es, ws) →
        ∀ e ∈ es, e.error_type ≠ SchemaErrorType.ObjectConstraintViolation := by
  cases n with
  | zero =>
      exact ⟨rfl, fun es ws h => by simp [validateValue] at h⟩
  | succ n =>
      have hcs : constraintsStep v.regexIsMatch D
          (so.filter (fun kv => kv.1 != "additionalProperties")) p =
          constraintsStep v.regexIsMatch D so p := by
        unfold constraintsStep
        rw [getKey_filterAP so "minLength" (by decide),
            getKey_filterAP so "maxLength" (by decide),
            getKey_filterAP so "pattern" (by decide),
            getKey_filterAP so "minimum" (by decide),
            getKey_filterAP so "maximum" (by decide),
            getKey_filterAP so "minItems" (by decide),
            getKey_filterAP so "maxItems" (by decide)]
      have hmain := validateValue_plain v n D p so h₁ h₂ h₃ h₄ h₅ h₆ h₇
      have hfilt := validateValue_plain v n D p
        (so.filter (fun kv => kv.1 != "additionalProperties"))
        (by rw [getKey_filterAP so "$ref" (by decide)]; exact h₁)
        (by rw [getKey_filterAP so "allOf" (by decide)]; exact h₂)
        (by rw [getKey_filterAP so "anyOf" (by decide)]; exact h₃)
        (by rw [getKey_filterAP so "oneOf" (by decide)]; exact h₄)
        (by rw [getKey_filterAP so "not" (by decide)]; exact h₅)
        (by rw [getKey_filterAP so "items" (by decide)]; exact h₆)
        (by rw [getKey_filterAP so "properties" (by decide)]; exact h₇)
      constructor
      · rw [hmain, hfilt, hcs, getKey_filterAP so "type" (by decide),
            getKey_filterAP so "required" (by decide)]
      · intro es ws h
        rw [hmain] at h
        simp only [Option.some.injEq, Prod.mk.injEq] at h
        obtain ⟨hes, -⟩ := h
        intro e he
        rw [← hes] at he
        rcases List.mem_append.mp he with he' | he'
        · rcases List.mem_append.mp he' with he'' | he''
          · rw [typeStep_types D (getKey so "type") p e he'']
            simp
          · rw [requiredStep_types D (getKey so "required") p e he'']
            simp
        · rcases constraintsStep_types v.regexIsMatch D so p e he' with h' | h' | h' <;>
            rw [h'] <;> simp

/-- Witness for C9 amended at the document `{"x":1}` and the schema
`{"additionalProperties": false, "type": "object"}`. -/
theorem c9_additional_props_amended_witness :
    (validateValue v0 1 (.obj [("x", .num 1)])
        (.obj [("additionalProperties", .bool false), ("type", .str "object")]) "" =
      validateValue v0 1 (.obj [("x", .num 1)])
        (.obj (([("additionalProperties", Value.bool false),
                 ("type", Value.str "object")]).filter
          (fun kv => kv.1 != "additionalProperties"))) "")
    ∧ ∀ es ws, validateValue v0 1 (.obj [("x", .num 1)])
        (.obj [("additionalProperties", .bool false), ("type", .str "object")]) "" =
          some (es, ws) →
        ∀ e ∈ es, e.error_type ≠ SchemaErrorType.ObjectConstraintViolation :=
  c9_additional_props_amended v0 1 (.obj [("x", .num 1)]) ""
    [("additionalProperties", .bool false), ("type", .str "object")]
    rfl rfl rfl rfl rfl rfl rfl

end SchemaVal
